import Mathlib

/-!
Verification development for the Apple Music genre fetcher
(`fetch_apple_genres.py`): a shallow embedding of its JSON handling,
metadata extractor, provider resolvers, per-track orchestrator and batch
loop, together with theorems settling the specification claims.

Python values flowing through the script are modelled by the `JVal`
inductive; code that can raise runs in the `Py` monad (`Except PyErr`),
with the two rate-limit exception classes and a collapsed `other`
constructor for every remaining exception kind (TypeError, KeyError,
AttributeError, JSON decode errors, ...), since every `except Exception`
handler in the source treats those uniformly.  Wall-clock time is a `Nat`
counter in milliseconds; network calls are modelled as taking no time,
and the responses a run would observe are supplied as explicit arguments.
-/

/-- Python value model: `None`, booleans, numbers (ints suffice for this
script), strings, lists and dicts (as association lists with distinct
keys, matching JSON object semantics). -/
inductive JVal where
  | null
  | bool (b : Bool)
  | num (n : Int)
  | str (s : String)
  | arr (elems : List JVal)
  | obj (fields : List (String × JVal))

/-- Python errors relevant to this script: the two rate-limit exception
classes defined at the top of `fetch_apple_genres.py`, and a single
collapsed constructor for every other exception. -/
inductive PyErr where
  | rate (tag : String)
  | soft (tag : String)
  | other
deriving Repr, DecidableEq

/-- Python computations that may raise. -/
abbrev Py (α : Type) : Type := Except PyErr α

/-- Python truthiness of a value. -/
def truthy : JVal → Bool
  | .null => false
  | .bool b => b
  | .num n => n != 0
  | .str s => !s.data.isEmpty
  | .arr xs => !xs.isEmpty
  | .obj fs => !fs.isEmpty

/-- Python `s.lower()` (ASCII case folding, which covers every string the
script lowers). -/
def pyLower (s : String) : String :=
  ⟨s.data.map Char.toLower⟩

/-- Characters stripped by Python `str.strip()` with no argument (the
ASCII whitespace actually occurring in scraped genre text). -/
def pyIsSpace (c : Char) : Bool :=
  c = ' ' || c = '\t' || c = '\n' || c = '\r'

/-- Python `s.strip()`: remove leading and trailing whitespace. -/
def pyStrip (s : String) : String :=
  ⟨((s.data.dropWhile pyIsSpace).reverse.dropWhile pyIsSpace).reverse⟩

/-- Character-list core of Python `s.split(sep)` for a one-character
separator: always yields one (possibly empty) piece more than the number
of separators. -/
def pySplitAux (sep : Char) : List Char → List (List Char)
  | [] => [[]]
  | c :: rest =>
    if c = sep then [] :: pySplitAux sep rest
    else
      match pySplitAux sep rest with
      | h :: t => (c :: h) :: t
      | [] => [[c]]

/-- Python `s.split(sep)` for a one-character separator. -/
def pySplit (sep : Char) (s : String) : List String :=
  (pySplitAux sep s.data).map (fun cs => ⟨cs⟩)

/-- Python `x == lit` for a string literal `lit`: true exactly when `x` is
an equal string (the script only ever compares values against string
literals). -/
def jIsStrEq (v : JVal) (s : String) : Bool :=
  match v with
  | .str t => t == s
  | _ => false

/-- Substring test, modelling Python `needle in haystack` for strings. -/
def containsSub (needle hay : String) : Bool :=
  (List.range (hay.toList.length + 1)).any
    (fun i => needle.toList.isPrefixOf (hay.toList.drop i))

mutual

/-- Python `repr` of a value (string escaping inside quotes elided; no
theorem depends on the rendering of containers). -/
def pyRepr : JVal → String
  | .null => "None"
  | .bool true => "True"
  | .bool false => "False"
  | .num n => toString n
  | .str s => "\x27" ++ s ++ "\x27"
  | .arr xs => "[" ++ pyReprElems xs ++ "]"
  | .obj fs => "\x7b" ++ pyReprFields fs ++ "\x7d"

/-- Comma-separated reprs of list elements. -/
def pyReprElems : List JVal → String
  | [] => ""
  | [x] => pyRepr x
  | x :: rest => pyRepr x ++ ", " ++ pyReprElems rest

/-- Comma-separated reprs of dict entries. -/
def pyReprFields : List (String × JVal) → String
  | [] => ""
  | [(k, v)] => "\x27" ++ k ++ "\x27: " ++ pyRepr v
  | (k, v) :: rest => "\x27" ++ k ++ "\x27: " ++ pyRepr v ++ ", " ++ pyReprFields rest

end

/-- Python `str` of a value: identity on strings, `repr`-style otherwise
(as used by f-string interpolation and `str(...)` in the script). -/
def pyStr : JVal → String
  | .str s => s
  | v => pyRepr v

/-- Python `d.get(key, dflt)`: dict lookup with default; raises
(AttributeError) on non-dicts. -/
def jGet (v : JVal) (key : String) (dflt : JVal) : Py JVal :=
  match v with
  | .obj fs =>
    match fs.find? (fun p => p.1 == key) with
    | some p => .ok p.2
    | none => .ok dflt
  | _ => .error .other

/-- Python `v[key]` for a string key: dict lookup raising KeyError when
missing; TypeError on lists/strings/scalars. -/
def jItem (v : JVal) (key : String) : Py JVal :=
  match v with
  | .obj fs =>
    match fs.find? (fun p => p.1 == key) with
    | some p => .ok p.2
    | none => .error .other
  | _ => .error .other

/-- Python `key in v`: key test on dicts, membership on lists, substring
on strings, TypeError otherwise. -/
def jIn (key : String) (v : JVal) : Py Bool :=
  match v with
  | .obj fs => .ok (fs.any (fun p => p.1 == key))
  | .arr xs => .ok (xs.any (fun x => jIsStrEq x key))
  | .str s => .ok (containsSub key s)
  | _ => .error .other

/-- Python `len(v)`: defined on strings, lists and dicts; TypeError
otherwise. -/
def pyLen (v : JVal) : Py Nat :=
  match v with
  | .str s => .ok s.length
  | .arr xs => .ok xs.length
  | .obj fs => .ok fs.length
  | _ => .error .other

/-- Python `for x in v`: lists yield elements, dicts their keys, strings
their characters; TypeError otherwise. -/
def jIter (v : JVal) : Py (List JVal) :=
  match v with
  | .arr xs => .ok xs
  | .obj fs => .ok (fs.map (fun p => JVal.str p.1))
  | .str s => .ok (s.toList.map (fun c => JVal.str c.toString))
  | _ => .error .other

mutual

/-- Embedding of `find_key_recursive(data, target_key)`: collect every
value stored under `target` at any depth, extending (one-level
flattening) list-valued occurrences and appending all other occurrences
verbatim; non-matching scalar values are skipped, container values are
recursed into. -/
def find_key_recursive (target : String) : JVal → List JVal
  | .obj fields => find_key_fields target fields
  | .arr items => find_key_list target items
  | _ => []

/-- Dict part of `find_key_recursive`: the `for key, value in data.items()`
loop body. -/
def find_key_fields (target : String) : List (String × JVal) → List JVal
  | [] => []
  | (k, v) :: rest =>
    (if k = target then
      match v with
      | .arr xs => xs
      | _ => [v]
     else
      match v with
      | .obj _ => find_key_recursive target v
      | .arr _ => find_key_recursive target v
      | _ => []) ++ find_key_fields target rest

/-- List part of `find_key_recursive`: the `for item in data` loop. -/
def find_key_list (target : String) : List JVal → List JVal
  | [] => []
  | x :: rest => find_key_recursive target x ++ find_key_list target rest

end

/-- The `GENRES_TO_KEEP_WHOLE` configuration constant. -/
def GENRES_TO_KEEP_WHOLE : List String :=
  ["singer/songwriter", "adult/contemporary"]

/-- Per-genre processing in `scrape_apple_metadata`: keep a keep-whole
genre verbatim, otherwise split on `/`, strip each part and keep the
non-empty parts. -/
def processGenre (g : String) : List String :=
  if GENRES_TO_KEEP_WHOLE.contains (pyLower g) then [g]
  else (((pySplit '/' g).map pyStrip).filter (fun p => !p.data.isEmpty))

/-- The `processed_genres` accumulation: only `isinstance(g, str)` values
contribute, each through `processGenre`. -/
def processedGenres (raw : List JVal) : List String :=
  raw.flatMap (fun v =>
    match v with
    | .str s => processGenre s
    | _ => [])

/-- The `clean_genres` computation:
`list(set([g for g in processed_genres if g.lower() != "music"]))`,
with the Python set modelled as deduplication (set iteration order is
arbitrary; all claims about it are membership-level). -/
def cleanGenres (raw : List JVal) : List String :=
  ((processedGenres raw).filter (fun g => pyLower g != "music")).dedup

/-- Date extraction in `scrape_apple_metadata`: `datePublished` at top
level, else inside `audio`, else inside `inAlbum`, else `None`;
evaluation order and exception behaviour follow the Python `if`/`elif`
chain with short-circuit `and`. -/
def extractDate (data : JVal) : Py JVal := do
  let b1 ← jIn "datePublished" data
  if b1 then jItem data "datePublished"
  else do
    let b2 ← jIn "audio" data
    let r2 : Option JVal ←
      if b2 then do
        let audio ← jItem data "audio"
        let b2b ← jIn "datePublished" audio
        if b2b then do
          let v ← jItem audio "datePublished"
          pure (some v)
        else pure none
      else pure none
    match r2 with
    | some v => pure v
    | none => do
      let b3 ← jIn "inAlbum" data
      if b3 then do
        let album ← jItem data "inAlbum"
        let b3b ← jIn "datePublished" album
        if b3b then jItem album "datePublished" else pure .null
      else pure .null

/-- Date normalization in `scrape_apple_metadata`: a truthy value of
length 4 becomes `f"{d}-12-31"`, of length 7 becomes `f"{d}-28"`, all
other values pass through; falsy values (including `None`) are left
untouched. -/
def normalizeDate (d : JVal) : Py JVal :=
  if truthy d then do
    let n ← pyLen d
    if n = 4 then pure (.str (pyStr d ++ "-12-31"))
    else if n = 7 then pure (.str (pyStr d ++ "-28"))
    else pure d
  else pure d

/-- The metadata record returned by `scrape_apple_metadata`. -/
structure ScrapeMeta where
  url : String
  date : JVal
  genres : List String

/-- Processing of one parsed JSON-LD block inside the
`for match in matches` loop: date extraction and normalization, recursive
genre collection, cleaning; yields `none` when the cleaned genre list is
empty (the `continue` case) and raises when the Python body would. -/
def processBlock (url : String) (data : JVal) : Py (Option ScrapeMeta) := do
  let d ← extractDate data
  let d2 ← normalizeDate d
  let cg := cleanGenres (find_key_recursive "genre" data)
  if cg.isEmpty then pure none
  else pure (some ⟨url, d2, cg⟩)

/-- Block scan of `scrape_apple_metadata`: each block is either an
unparseable payload (`none`, the `json.loads` failure caught and skipped)
or a parsed value; the first block whose processing succeeds with a
non-empty genre set is returned, exceptions and empty-genre blocks are
skipped. -/
def scanBlocks (url : String) : List (Option JVal) → Option ScrapeMeta
  | [] => none
  | b :: rest =>
    match b with
    | none => scanBlocks url rest
    | some data =>
      match processBlock url data with
      | .error _ => scanBlocks url rest
      | .ok none => scanBlocks url rest
      | .ok (some m) => some m

/-- Embedding of `scrape_apple_metadata` after URL canonicalization: the
page fetch yields an HTTP status and the list of JSON-LD payloads found
on the page (each already run through `json.loads`, `none` when that
raises); non-200 responses yield `None`. -/
def scrape_apple_metadata (url : String) (status : Nat)
    (blocks : List (Option JVal)) : Option ScrapeMeta :=
  if status = 200 then scanBlocks url blocks else none

/-- What a single block contributes to the scan: its metadata when it
parses, raises no exception and cleans to a non-empty genre set; nothing
otherwise.  Used to state the first-match property of the scan. -/
def blockYield (url : String) (b : Option JVal) : Option ScrapeMeta :=
  match b with
  | none => none
  | some data =>
    match processBlock url data with
    | .ok (some m) => some m
    | _ => none

example : cleanGenres [.str "Pop", .str "Music", .str "music"] = ["Pop"] := by
  decide

/-- An HTTP response as the script observes it through `requests`: the
status code and the result of `.json()` (`none` when decoding raises). -/
structure HttpResp where
  status : Nat
  body : Option JVal

/-- A scraped HTML page as the script observes it: the status code and
the `__NEXT_DATA__` payload — `none` when the script tag is absent,
`some none` when `json.loads` on it raises, `some (some v)` when it
parses to `v`. -/
structure PageResp where
  status : Nat
  nextData : Option (Option JVal)

/-- Outcome of the Odesli API phase: an early-returned direct link, the
entity id and type to continue with, or `None` returned. -/
inductive OdesliP1 where
  | link (url : JVal)
  | cont (eid etype : JVal)
  | noRes

/-- Body of the first `try` block of `resolve_odesli`: status checks, the
direct-link shortcut, and the empty-entity soft-rate-limit check. -/
def odesli_api_phase (api : HttpResp) : Py OdesliP1 := do
  if api.status = 429 then throw (.rate "Odesli")
  else if api.status ≠ 200 then pure .noRes
  else
    match api.body with
    | none => throw .other
    | some data => do
      let eid ← jGet data "id" .null
      let etype ← jGet data "type" .null
      let links ← jGet data "linksByPlatform" (.obj [])
      let hasApple ← jIn "appleMusic" links
      let shortcut : Option JVal ←
        if hasApple then do
          let am ← jItem links "appleMusic"
          let url ← jGet am "url" .null
          if truthy url then pure (some url) else pure none
        else pure none
      match shortcut with
      | some url => pure (.link url)
      | none =>
        if !truthy eid || !truthy etype then
          if !truthy links && !truthy eid then
            throw (.soft "Odesli returned empty response")
          else pure .noRes
        else pure (.cont eid etype)

/-- First `try` block of `resolve_odesli` with its `except` clauses
applied: rate-limit exceptions re-raised, any other exception turned into
an immediate `None` return. -/
def odesliPhase1 (api : HttpResp) : Py OdesliP1 :=
  match odesli_api_phase api with
  | .error .other => .ok .noRes
  | r => r

/-- Inner `for link in section['links']` loop of `resolve_odesli`: stops
at the first `appleMusic` entry, taking its `url` (possibly `None`) as
the new `raw_link`; keeps the current `raw_link` when no entry matches. -/
def odesliScanLinks (cur : JVal) : List JVal → Py JVal
  | [] => pure cur
  | l :: rest => do
    let plat ← jGet l "platform" .null
    if jIsStrEq plat "appleMusic" then jGet l "url" .null
    else odesliScanLinks cur rest

/-- Outer `for section in page_data.get('sections', [])` loop of
`resolve_odesli`, with the `if raw_link: break` check after each
section. -/
def odesliScanSections (cur : JVal) : List JVal → Py JVal
  | [] => pure cur
  | sec :: rest => do
    let hasLinks ← jIn "links" sec
    let cur2 ←
      if hasLinks then do
        let links ← jItem sec "links"
        let ls ← jIter links
        odesliScanLinks cur ls
      else pure cur
    if truthy cur2 then pure cur2 else odesliScanSections cur2 rest

/-- Body of the second `try` block of `resolve_odesli`: the song.link
page scrape. -/
def odesli_page_phase (page : PageResp) : Py JVal := do
  if page.status = 429 then throw (.rate "Odesli Page")
  else if page.status ≠ 200 then pure .null
  else
    match page.nextData with
    | none => pure .null
    | some none => throw .other
    | some (some jd) => do
      let props ← jGet jd "props" (.obj [])
      let pp ← jGet props "pageProps" (.obj [])
      let pageData ← jGet pp "pageData" (.obj [])
      let sections ← jGet pageData "sections" (.arr [])
      let secs ← jIter sections
      odesliScanSections .null secs

/-- Embedding of `resolve_odesli`: cooldown check, API phase, then page
phase; `now` and `cooldown` are the current clock and
`ODESLI_COOLDOWN_UNTIL`, both in milliseconds; the two responses are the
ones its two requests would receive. -/
def resolve_odesli (now cooldown : Nat) (api : HttpResp) (page : PageResp) : Py JVal :=
  if now < cooldown then .ok .null
  else
    match odesliPhase1 api with
    | .error e => .error e
    | .ok (.link url) => .ok url
    | .ok .noRes => .ok .null
    | .ok (.cont _eid etype) =>
      let _slug := if jIsStrEq etype "song" then "s" else "a"
      match odesli_page_phase page with
      | .error (.rate t) => .error (.rate t)
      | .error _ => .ok .null
      | .ok v => .ok v

/-- Outcome of the Tapelink generate-link call: the absolute share URL to
scrape, or `None` returned. -/
inductive TapeP1 where
  | proceed (shareUrl : String)
  | noRes

/-- Generate-link part of `resolve_tapelink`: status checks, the
`success` flag with its soft-rate-limit message sniffing, and share-link
normalization. -/
def tapelink_api_phase (api : HttpResp) : Py TapeP1 := do
  if api.status = 429 then throw (.rate "Tapelink")
  else if api.status ≠ 200 then pure .noRes
  else
    match api.body with
    | none => throw .other
    | some data => do
      let suc ← jGet data "success" .null
      if !truthy suc then do
        let msgDefault ← jGet data "message" (.str "unknown")
        let em ← jGet data "error" msgDefault
        if containsSub "rate" (pyLower (pyStr em)) ||
            containsSub "limit" (pyLower (pyStr em)) then
          throw (.soft "Tapelink rate limited")
        else pure .noRes
      else do
        let stub ← jGet data "shareableLink" .null
        if !truthy stub then pure .noRes
        else
          match stub with
          | .str st =>
            pure (.proceed (if !("http".data.isPrefixOf st.data) then "https://" ++ st else st))
          | _ => throw .other

/-- Share-page scrape of `resolve_tapelink` (direct `['props']` style
subscripts, so missing keys raise). -/
def tapelink_page_phase (page : PageResp) : Py JVal := do
  if page.status = 429 then throw (.rate "Tapelink Page")
  else if page.status ≠ 200 then pure .null
  else
    match page.nextData with
    | none => pure .null
    | some none => throw .other
    | some (some jd) => do
      let props ← jItem jd "props"
      let pp ← jItem props "pageProps"
      let initial ← jItem pp "initialSongData"
      let platforms ← jGet initial "platforms" (.obj [])
      jGet platforms "apple_music" .null

/-- Embedding of `resolve_tapelink`: cooldown check and the single `try`
whose `except` clauses re-raise the two rate-limit kinds and turn every
other exception into `None`. -/
def resolve_tapelink (now cooldown : Nat) (api : HttpResp) (page : PageResp) : Py JVal :=
  if now < cooldown then .ok .null
  else
    match tapelink_api_phase api with
    | .error (.rate t) => .error (.rate t)
    | .error (.soft t) => .error (.soft t)
    | .error .other => .ok .null
    | .ok .noRes => .ok .null
    | .ok (.proceed _u) =>
      match tapelink_page_phase page with
      | .error (.rate t) => .error (.rate t)
      | .error (.soft t) => .error (.soft t)
      | .error .other => .ok .null
      | .ok v => .ok v

/-- Create-slug call of `resolve_squigly`: accepts status 200 and 201,
returns the slug when truthy. -/
def squigly_create_phase (resp : HttpResp) : Py (Option JVal) := do
  if resp.status = 429 then throw (.rate "Squigly")
  else if resp.status ≠ 200 && resp.status ≠ 201 then pure none
  else
    match resp.body with
    | none => throw .other
    | some data => do
      let slug ← jGet data "slug" .null
      if truthy slug then pure (some slug) else pure none

/-- Resolve-slug call of `resolve_squigly`: reads
`services -> apple -> url`. -/
def squigly_resolve_phase (resp : HttpResp) : Py JVal := do
  if resp.status = 429 then throw (.rate "Squigly Resolve")
  else if resp.status ≠ 200 then pure .null
  else
    match resp.body with
    | none => throw .other
    | some rd => do
      let services ← jGet rd "services" (.obj [])
      let apple ← jGet services "apple" (.obj [])
      jGet apple "url" .null

/-- Embedding of `resolve_squigly`: cooldown check and the single `try`
whose `except` clauses re-raise only `RateLimitException` and turn every
other exception (soft rate limits included) into `None`. -/
def resolve_squigly (now cooldown : Nat) (createResp resolveResp : HttpResp) : Py JVal :=
  if now < cooldown then .ok .null
  else
    match squigly_create_phase createResp with
    | .error (.rate t) => .error (.rate t)
    | .error _ => .ok .null
    | .ok none => .ok .null
    | .ok (some _slug) =>
      match squigly_resolve_phase resolveResp with
      | .error (.rate t) => .error (.rate t)
      | .error _ => .ok .null
      | .ok v => .ok v


/-- The three providers of the script. -/
inductive Provider where
  | odesli
  | tapelink
  | squigly
deriving Repr, DecidableEq

/-- Metadata as it flows through `process_track` (dates as produced by
the scraper on well-formed pages: a string, or `None`). -/
structure MetaS where
  url : String
  date : Option String
  genres : List String
deriving Repr, DecidableEq

/-- What `check_provider` (or the fallback block) observes from one
provider during one attempt: metadata, nothing, a propagated
`RateLimitException`, or a propagated `SoftRateLimitException`. -/
inductive POutcome where
  | found (m : MetaS)
  | nothing
  | hardLimit
  | softLimit
deriving Repr, DecidableEq

/-- Provider behaviour during one attempt of `process_track`. -/
structure AttemptEnv where
  odesli : POutcome
  tapelink : POutcome
  squigly : POutcome
deriving Repr, DecidableEq

/-- The orchestrator's mutable clock and the three module-level
`*_COOLDOWN_UNTIL` globals, all in milliseconds. -/
structure OrchState where
  now : Nat
  odesliUntil : Nat
  tapelinkUntil : Nat
  squiglyUntil : Nat
deriving Repr, DecidableEq

/-- The cooldown-until global for a provider. -/
def cooldownOf (s : OrchState) : Provider → Nat
  | .odesli => s.odesliUntil
  | .tapelink => s.tapelinkUntil
  | .squigly => s.squiglyUntil

/-- Availability check used before every dispatch in `process_track`:
`time.time() > X_COOLDOWN_UNTIL` (strict). -/
def isAvailable (s : OrchState) (p : Provider) : Bool :=
  s.now > cooldownOf s p

/-- Cooldown write performed on a rate-limit signal:
`X_COOLDOWN_UNTIL = time.time() + 120` (120 seconds, in ms here). -/
def markLimited (s : OrchState) : Provider → OrchState
  | .odesli => { s with odesliUntil := s.now + 120 * 1000 }
  | .tapelink => { s with tapelinkUntil := s.now + 120 * 1000 }
  | .squigly => { s with squiglyUntil := s.now + 120 * 1000 }

/-- Accumulated effect of one attempt of `process_track`: collected
metadata, the `should_retry` flag, the updated globals, and (for
observability) which providers were actually dispatched. -/
structure AttemptResult where
  results : List MetaS
  shouldRetry : Bool
  state : OrchState
  dispatched : List Provider
deriving Repr, DecidableEq

/-- Phase-1 handling of one primary provider in `process_track`: skip it
on cooldown, otherwise dispatch and fold its outcome into the attempt
(metadata appended; hard or soft rate limit sets the provider cooldown
and the retry flag). -/
def primaryStep (p : Provider) (o : POutcome) (acc : AttemptResult) : AttemptResult :=
  if isAvailable acc.state p then
    let acc2 := { acc with dispatched := acc.dispatched ++ [p] }
    match o with
    | .found m => { acc2 with results := acc2.results ++ [m] }
    | .nothing => acc2
    | .hardLimit => { acc2 with state := markLimited acc2.state p, shouldRetry := true }
    | .softLimit => { acc2 with state := markLimited acc2.state p, shouldRetry := true }
  else acc

/-- Phase-2 fallback of `process_track`: Squigly is tried only when no
results were collected and it is not on cooldown; metadata is appended,
a hard rate limit sets its cooldown but — unlike the primary providers —
not the retry flag, and any other exception (the soft class included,
caught by the generic handler there) has no effect. -/
def fallbackStep (o : POutcome) (acc : AttemptResult) : AttemptResult :=
  if acc.results.isEmpty && isAvailable acc.state .squigly then
    let a3 := { acc with dispatched := acc.dispatched ++ [.squigly] }
    match o with
    | .found m => { a3 with results := a3.results ++ [m] }
    | .hardLimit => { a3 with state := markLimited a3.state .squigly }
    | _ => a3
  else acc

/-- One attempt of the `while retry_count < max_retries` loop body up to
the result check: primary phase on Odesli and Tapelink, then the Squigly
fallback. -/
def runAttempt (e : AttemptEnv) (s : OrchState) : AttemptResult :=
  fallbackStep e.squigly
    (primaryStep .tapelink e.tapelink (primaryStep .odesli e.odesli ⟨[], false, s, []⟩))

/-- Sort key of the merge step:
`x['date'] if x['date'] else '9999-99-99'` (falsy dates — `None` or the
empty string — become the maximal sentinel). -/
def sortKeyS (m : MetaS) : String :=
  match m.date with
  | some d => if d.data.isEmpty then "9999-99-99" else d
  | none => "9999-99-99"

/-- Fold computing the first minimal-key element, as
`results.sort(key=...)` (a stable sort) followed by `results[0]`
selects it. -/
def bestFold (b : MetaS) : List MetaS → MetaS
  | [] => b
  | x :: rest => bestFold (if sortKeyS x < sortKeyS b then x else b) rest

/-- The merge step of `process_track`: the first element of the
stable-sorted result list, `none` when no results were collected. -/
def bestOf : List MetaS → Option MetaS
  | [] => none
  | m :: rest => some (bestFold m rest)

/-- A TrackUpdate record as appended for submission to the store. -/
structure TrackUpdate where
  isrc : String
  track_id : String
  apple_music_genres : String
  updated_at : Nat
deriving Repr, DecidableEq

/-- Python `json.dumps` on a list of strings (escaping elided; the claim
only needs that the empty list renders as `[]`). -/
def jsonDumpsList (gs : List String) : String :=
  "[" ++ String.intercalate ", " (gs.map (fun g => "\"" ++ g ++ "\"")) ++ "]"

/-- Observable trace of one `process_track` call: its return value, the
final globals, the seconds slept between attempts, the number of attempts
executed, and the providers dispatched in each attempt. -/
structure RunLog where
  result : Option TrackUpdate
  state : OrchState
  sleeps : List Nat
  attempts : Nat
  dispatches : List (List Provider)
deriving Repr, DecidableEq

/-- Advance the clock by a `time.sleep` of the given seconds. -/
def sleepSec (s : OrchState) (secs : Nat) : OrchState :=
  { s with now := s.now + secs * 1000 }

/-- The `while retry_count < max_retries` loop of `process_track`, with
`fuel = max_retries - retry_count` making the recursion structural (the
loop is entered only while `retry_count < max_retries`, so fuel is
positive at every real call). -/
def process_track_go (env : Nat → AttemptEnv) (sid isrc : String) :
    Nat → Nat → OrchState → RunLog
  | 0, _, s => ⟨none, s, [], 0, []⟩
  | fuel + 1, rc, s =>
    let a := runAttempt (env rc) s
    match bestOf a.results with
    | some best =>
      ⟨some ⟨isrc, sid, jsonDumpsList best.genres, a.state.now / 1000⟩,
        a.state, [], 1, [a.dispatched]⟩
    | none =>
      if a.shouldRetry then
        if rc + 1 < 3 then
          let w := min (30 * (rc + 1)) 120
          let rest := process_track_go env sid isrc fuel (rc + 1) (sleepSec a.state w)
          ⟨rest.result, rest.state, w :: rest.sleeps, rest.attempts + 1,
            a.dispatched :: rest.dispatches⟩
        else ⟨none, a.state, [], 1, [a.dispatched]⟩
      else ⟨none, a.state, [], 1, [a.dispatched]⟩

/-- The `max_retries` constant of `process_track`. -/
def max_retries : Nat := 3

/-- Embedding of `process_track` for one track: the per-attempt provider
behaviour is supplied by `env` (attempt index to outcomes). -/
def process_track (env : Nat → AttemptEnv) (sid isrc : String) (s : OrchState) : RunLog :=
  process_track_go env sid isrc max_retries 0 s

/-- A work item as fetched from the store. -/
structure TrackItem where
  id : String
  isrc : String
deriving Repr, DecidableEq

/-- The record `run_job` appends when `process_track` returns `None`:
same isrc and track id, genre list `'[]'`, current timestamp. -/
def mkEmptyUpdate (t : TrackItem) (nowMs : Nat) : TrackUpdate :=
  ⟨t.isrc, t.id, "[]", nowMs / 1000⟩

/-- The per-track loop of `run_job` over one fetched batch: each track
runs through `process_track`, exactly one update is appended per track
(the returned record, or the empty-genre fallback), then the 0.5 s
`REQUEST_DELAY` elapses.  Returns the appended updates, the final
globals, and the per-track traces. -/
def run_job_go (env : Nat → Nat → AttemptEnv) (i : Nat) (s : OrchState) :
    List TrackItem → List TrackUpdate × OrchState × List RunLog
  | [] => ([], s, [])
  | t :: rest =>
    let log := process_track (env i) t.id t.isrc s
    let u :=
      match log.result with
      | some r => r
      | none => mkEmptyUpdate t log.state.now
    let s2 := { log.state with now := log.state.now + 500 }
    let r := run_job_go env (i + 1) s2 rest
    (u :: r.1, r.2.1, log :: r.2.2)

/-- Test for `isinstance(g, str)`. -/
def isJStr : JVal → Bool
  | .str _ => true
  | _ => false

/-- Whether a provider outcome is one of the two rate-limit signals. -/
def isLimitOutcome : POutcome → Bool
  | .hardLimit => true
  | .softLimit => true
  | _ => false

/-- A state in which both primary providers are on cooldown
(`now = 1000 ms`, both primary cooldowns until 500000 ms) while the
fallback is free. -/
def c3State : OrchState := ⟨1000, 500000, 500000, 0⟩

/-- Metadata the fallback returns in the breaker scenario. -/
def c3Meta : MetaS := ⟨"https://music.apple.com/us/album/x", some "2020-01-01", ["Pop"]⟩

/-- Provider behaviour for the breaker scenario: primaries would find
nothing (they are not consulted), the fallback succeeds. -/
def c3Env : Nat → AttemptEnv := fun _ => ⟨.nothing, .nothing, .found c3Meta⟩

/-- A state with no provider on cooldown at clock 1 ms. -/
def c4State : OrchState := ⟨1, 0, 0, 0⟩

/-- Provider behaviour where both primaries legitimately find nothing and
the fallback signals a hard rate limit, every attempt. -/
def c4Env : Nat → AttemptEnv := fun _ => ⟨.nothing, .nothing, .hardLimit⟩

theorem mem_cleanGenres_iff (raw : List JVal) (x : String) :
    x ∈ cleanGenres raw ↔ x ∈ processedGenres raw ∧ pyLower x ≠ "music" := by
  unfold cleanGenres
  rw [List.mem_dedup, List.mem_filter]
  simp [bne_iff_ne]

/-- C9: a raw genre whose lower-cased form is in the keep-whole list is
kept verbatim unsplit; otherwise it is split on `/` into trimmed
non-empty segments; the cleaned output is deduplicated, contains no
genre lower-casing to "music", and consists exactly of the processed
genres other than "music"; in particular
`{"Pop", "Music", "music"}` cleans to `{"Pop"}`. -/
theorem keep_whole_split_dedup_music_C9 :
    (∀ g : String, GENRES_TO_KEEP_WHOLE.contains (pyLower g) → processGenre g = [g]) ∧
    (∀ g : String, ¬ GENRES_TO_KEEP_WHOLE.contains (pyLower g) →
      processGenre g = ((pySplit '/' g).map pyStrip).filter (fun p => !p.data.isEmpty)) ∧
    processGenre "Rock/Alternative" = ["Rock", "Alternative"] ∧
    processGenre "Singer/Songwriter" = ["Singer/Songwriter"] ∧
    (∀ raw : List JVal, (cleanGenres raw).Nodup) ∧
    (∀ raw : List JVal, ∀ x ∈ cleanGenres raw, pyLower x ≠ "music") ∧
    (∀ (raw : List JVal) (x : String),
      x ∈ cleanGenres raw ↔ x ∈ processedGenres raw ∧ pyLower x ≠ "music") ∧
    cleanGenres [.str "Pop", .str "Music", .str "music"] = ["Pop"] := by
  refine ⟨?_, ?_, by decide, by decide, ?_, ?_, mem_cleanGenres_iff, by decide⟩
  · intro g h
    unfold processGenre
    rw [if_pos h]
  · intro g h
    unfold processGenre
    rw [if_neg h]
  · intro raw
    exact List.nodup_dedup _
  · intro raw x hx
    exact ((mem_cleanGenres_iff raw x).mp hx).2

theorem keep_whole_split_dedup_music_C9_witness :
    processGenre "Adult/Contemporary" = ["Adult/Contemporary"] ∧
    processGenre "Hip-Hop/Rap" = ["Hip-Hop", "Rap"] ∧
    (cleanGenres [.str "Pop", .str "Pop", .str "Music"]).Nodup ∧
    ("Pop" ∈ cleanGenres [.str "Pop", .str "Music"] ↔
      "Pop" ∈ processedGenres [.str "Pop", .str "Music"] ∧ pyLower "Pop" ≠ "music") :=
  ⟨keep_whole_split_dedup_music_C9.1 "Adult/Contemporary" (by decide),
   (keep_whole_split_dedup_music_C9.2.1 "Hip-Hop/Rap" (by decide)).trans (by decide),
   keep_whole_split_dedup_music_C9.2.2.2.2.1 _,
   keep_whole_split_dedup_music_C9.2.2.2.2.2.2.1 _ _⟩

/-- C8: date normalization expands a bare 4-character year to
`YYYY-12-31` and a 7-character year-month to `YYYY-MM-28`, leaves a full
10-character date unchanged, and a block carrying no date field at the
top level nor under `audio` nor under `inAlbum` yields a null date. -/
theorem date_normalization_C8 :
    (∀ s : String, s.data.length = 4 →
      normalizeDate (.str s) = .ok (.str (s ++ "-12-31"))) ∧
    (∀ s : String, s.data.length = 7 →
      normalizeDate (.str s) = .ok (.str (s ++ "-28"))) ∧
    (∀ s : String, s.data.length = 10 →
      normalizeDate (.str s) = .ok (.str s)) ∧
    (∀ data : JVal,
      jIn "datePublished" data = .ok false →
      jIn "audio" data = .ok false →
      jIn "inAlbum" data = .ok false →
      extractDate data = .ok .null) := by
  refine ⟨?_, ?_, ?_, ?_⟩
  · intro s h
    have hne : s.data.isEmpty = false := by
      cases hd : s.data
      · rw [hd] at h; simp at h
      · rfl
    simp [normalizeDate, truthy, pyLen, pyStr, String.length, h, hne,
      Bind.bind, Except.bind, pure, Except.pure]
  · intro s h
    have hne : s.data.isEmpty = false := by
      cases hd : s.data
      · rw [hd] at h; simp at h
      · rfl
    simp [normalizeDate, truthy, pyLen, pyStr, String.length, h, hne,
      Bind.bind, Except.bind, pure, Except.pure]
  · intro s h
    have hne : s.data.isEmpty = false := by
      cases hd : s.data
      · rw [hd] at h; simp at h
      · rfl
    simp [normalizeDate, truthy, pyLen, pyStr, String.length, h, hne,
      Bind.bind, Except.bind, pure, Except.pure]
  · intro data h1 h2 h3
    simp [extractDate, h1, h2, h3, Bind.bind, Except.bind, pure, Except.pure]

theorem date_normalization_C8_witness :
    normalizeDate (.str "2020") = .ok (.str "2020-12-31") ∧
    normalizeDate (.str "2020-05") = .ok (.str "2020-05-28") ∧
    normalizeDate (.str "2020-05-17") = .ok (.str "2020-05-17") ∧
    extractDate (.obj [("name", .str "Song")]) = .ok .null :=
  ⟨(date_normalization_C8.1 "2020" (by decide)).trans (by rfl),
   (date_normalization_C8.2.1 "2020-05" (by decide)).trans (by rfl),
   date_normalization_C8.2.2.1 "2020-05-17" (by decide),
   date_normalization_C8.2.2.2 _ (by rfl) (by rfl) (by rfl)⟩

theorem processedGenres_filter_str (raw : List JVal) :
    processedGenres (raw.filter isJStr) = processedGenres raw := by
  induction raw with
  | nil => rfl
  | cons v rest ih =>
    cases v <;> simp [processedGenres, isJStr, List.filter] at ih ⊢ <;>
      simpa [processedGenres] using ih

/-- C10: the recursive key search collects `genre` values at any depth,
flattening list-valued occurrences one level while appending dict- and
scalar-valued occurrences whole, and the genre cleaning discards every
collected non-string value, so that only string occurrences can reach
the returned genre set; concretely, a numeric, a nested-list and an
object occurrence contribute nothing. -/
theorem nonstring_genres_discarded_C10 :
    (∀ xs : List JVal,
      find_key_recursive "genre" (.obj [("genre", .arr xs)]) = xs) ∧
    (∀ s : String,
      find_key_recursive "genre" (.obj [("genre", .str s)]) = [.str s]) ∧
    (∀ fs : List (String × JVal),
      find_key_recursive "genre" (.obj [("genre", .obj fs)]) = [.obj fs]) ∧
    (∀ fs : List (String × JVal),
      find_key_recursive "genre" (.obj [("album", .obj fs)]) =
        find_key_fields "genre" fs) ∧
    find_key_recursive "genre"
      (.obj [("a", .obj [("b", .arr [.obj [("genre", .str "Pop")]])])]) = [.str "Pop"] ∧
    (∀ raw : List JVal, cleanGenres (raw.filter isJStr) = cleanGenres raw) ∧
    cleanGenres [.str "Pop", .num 7, .arr [.str "Rock"], .obj [("g", .str "Jazz")], .null]
      = cleanGenres [.str "Pop"] := by
  refine ⟨?_, ?_, ?_, ?_, by rfl, ?_, by rfl⟩
  · intro xs
    simp [find_key_recursive, find_key_fields]
  · intro s
    simp [find_key_recursive, find_key_fields]
  · intro fs
    simp [find_key_recursive, find_key_fields]
  · intro fs
    simp [find_key_recursive, find_key_fields,
      (by decide : ¬ ("album" = "genre"))]
  · intro raw
    unfold cleanGenres
    rw [processedGenres_filter_str]

theorem processBlock_genres_ne_nil (url : String) (data : JVal) (m : ScrapeMeta)
    (h : processBlock url data = .ok (some m)) : m.genres ≠ [] := by
  unfold processBlock at h
  simp only [Bind.bind, Except.bind] at h
  cases hd : extractDate data with
  | error e => rw [hd] at h; simp at h
  | ok d =>
    rw [hd] at h
    dsimp only at h
    cases hn : normalizeDate d with
    | error e => rw [hn] at h; simp at h
    | ok d2 =>
      rw [hn] at h
      dsimp only at h
      by_cases hc : (cleanGenres (find_key_recursive "genre" data)).isEmpty
      · simp [hc, pure, Except.pure] at h
      · rw [if_neg hc] at h
        simp only [pure, Except.pure, Except.ok.injEq, Option.some.injEq] at h
        subst h
        intro e
        have e2 : cleanGenres (find_key_recursive "genre" data) = [] := e
        exact hc (by rw [e2]; rfl)

theorem scanBlocks_eq_findSome (url : String) (blocks : List (Option JVal)) :
    scanBlocks url blocks = blocks.findSome? (blockYield url) := by
  induction blocks with
  | nil => rfl
  | cons b rest ih =>
    cases b with
    | none => simpa [scanBlocks, blockYield, List.findSome?] using ih
    | some data =>
      cases h : processBlock url data with
      | error e => simpa [scanBlocks, blockYield, h, List.findSome?] using ih
      | ok o =>
        cases o with
        | none => simpa [scanBlocks, blockYield, h, List.findSome?] using ih
        | some m => simp [scanBlocks, blockYield, h, List.findSome?]

/-- C7: the extractor returns null on any non-success page status;
on a 200 response it returns exactly the first structured-data block
yielding usable (non-empty cleaned) genres, skipping unparseable blocks,
blocks raising during processing and blocks whose genre set cleans to
empty; and every non-null result carries a non-empty genre list. -/
theorem extractor_first_usable_block_C7 :
    (∀ (url : String) (status : Nat) (blocks : List (Option JVal)),
      status ≠ 200 → scrape_apple_metadata url status blocks = none) ∧
    (∀ (url : String) (blocks : List (Option JVal)),
      scrape_apple_metadata url 200 blocks = blocks.findSome? (blockYield url)) ∧
    (∀ (url : String) (status : Nat) (blocks : List (Option JVal)) (m : ScrapeMeta),
      scrape_apple_metadata url status blocks = some m → m.genres ≠ []) := by
  refine ⟨?_, ?_, ?_⟩
  · intro url status blocks h
    simp [scrape_apple_metadata, h]
  · intro url blocks
    simp [scrape_apple_metadata, scanBlocks_eq_findSome]
  · intro url status blocks m h
    unfold scrape_apple_metadata at h
    by_cases hs : status = 200
    · rw [if_pos hs, scanBlocks_eq_findSome] at h
      obtain ⟨b, hb, hy⟩ := List.exists_of_findSome?_eq_some h
      cases b with
      | none => simp [blockYield] at hy
      | some data =>
        simp only [blockYield] at hy
        cases hp : processBlock url data with
        | error e => rw [hp] at hy; simp at hy
        | ok o =>
          cases o with
          | none => rw [hp] at hy; simp at hy
          | some m2 =>
            rw [hp] at hy
            simp at hy
            subst hy
            exact processBlock_genres_ne_nil url data _ hp
    · rw [if_neg hs] at h
      simp at h

theorem extractor_first_usable_block_C7_witness :
    scrape_apple_metadata "u" 403 [some (.obj [("genre", .str "Pop")])] = none ∧
    scrape_apple_metadata "u" 200
      [some (.obj [("genre", .str "Music")]),
       some (.obj [("datePublished", .str "2018"), ("genre", .str "Pop/Dance")])] =
      [some (.obj [("genre", .str "Music")]),
       some (.obj [("datePublished", .str "2018"), ("genre", .str "Pop/Dance")])].findSome?
        (blockYield "u") ∧
    (⟨"u", .str "2018-12-31", ["Pop", "Dance"]⟩ : ScrapeMeta).genres ≠ [] :=
  ⟨extractor_first_usable_block_C7.1 "u" 403 _ (by decide),
   extractor_first_usable_block_C7.2.1 "u" _,
   extractor_first_usable_block_C7.2.2 "u" 200
     [some (.obj [("datePublished", .str "2018"), ("genre", .str "Pop/Dance")])]
     ⟨"u", .str "2018-12-31", ["Pop", "Dance"]⟩ (by rfl)⟩

theorem bestFold_mem (l : List MetaS) : ∀ b : MetaS, bestFold b l = b ∨ bestFold b l ∈ l := by
  induction l with
  | nil => intro b; left; rfl
  | cons x rest ih =>
    intro b
    by_cases hx : sortKeyS x < sortKeyS b
    · rcases ih (if sortKeyS x < sortKeyS b then x else b) with h | h
      · right
        rw [bestFold, h, if_pos hx]
        exact List.mem_cons_self x rest
      · right
        rw [bestFold]
        exact List.mem_cons_of_mem x h
    · rcases ih (if sortKeyS x < sortKeyS b then x else b) with h | h
      · left
        rw [bestFold, h, if_neg hx]
      · right
        rw [bestFold]
        exact List.mem_cons_of_mem x h

theorem bestFold_le (l : List MetaS) :
    ∀ b : MetaS, sortKeyS (bestFold b l) ≤ sortKeyS b ∧
      ∀ x ∈ l, sortKeyS (bestFold b l) ≤ sortKeyS x := by
  induction l with
  | nil => intro b; exact ⟨le_refl _, by simp⟩
  | cons y rest ih =>
    intro b
    have hb2 : sortKeyS (if sortKeyS y < sortKeyS b then y else b) ≤ sortKeyS b := by
      by_cases hy : sortKeyS y < sortKeyS b
      · rw [if_pos hy]; exact le_of_lt hy
      · rw [if_neg hy]
    have hy2 : sortKeyS (if sortKeyS y < sortKeyS b then y else b) ≤ sortKeyS y := by
      by_cases hy : sortKeyS y < sortKeyS b
      · rw [if_pos hy]
      · rw [if_neg hy]; exact le_of_not_lt hy
    obtain ⟨h1, h2⟩ := ih (if sortKeyS y < sortKeyS b then y else b)
    refine ⟨le_trans (by rw [bestFold] at *; exact h1) hb2, ?_⟩
    intro x hx
    rcases List.mem_cons.mp hx with rfl | hx2
    · exact le_trans (by rw [bestFold]; exact h1) hy2
    · rw [bestFold]
      exact h2 x hx2

/-- C2: when results were collected, the selected result is one of them
and carries a minimal sort key, where the key of a missing (or falsy)
date is the maximal sentinel `9999-99-99` and present dates compare as
strings — so the result with the earliest present date wins;
`process_track` returns exactly the record built from that selected
result; and in the two scenarios of the claim the 2019-dated result
beats the 2021-dated one and the 2021-dated result beats the null-dated
one, in either presentation order. -/
theorem merge_earliest_date_C2 :
    (∀ (results : List MetaS) (m : MetaS), bestOf results = some m →
      m ∈ results ∧ ∀ x ∈ results, sortKeyS m ≤ sortKeyS x) ∧
    (∀ m : MetaS, m.date = none → sortKeyS m = "9999-99-99") ∧
    (∀ (env : Nat → AttemptEnv) (sid isrc : String) (st : OrchState) (m : MetaS),
      bestOf (runAttempt (env 0) st).results = some m →
      (process_track env sid isrc st).result =
        some ⟨isrc, sid, jsonDumpsList m.genres, (runAttempt (env 0) st).state.now / 1000⟩) ∧
    bestOf [⟨"a", some "2019-01-01", ["R"]⟩, ⟨"b", some "2021-06-15", ["P"]⟩]
      = some ⟨"a", some "2019-01-01", ["R"]⟩ ∧
    bestOf [⟨"b", some "2021-06-15", ["P"]⟩, ⟨"a", some "2019-01-01", ["R"]⟩]
      = some ⟨"a", some "2019-01-01", ["R"]⟩ ∧
    bestOf [⟨"a", none, ["R"]⟩, ⟨"b", some "2021-06-15", ["P"]⟩]
      = some ⟨"b", some "2021-06-15", ["P"]⟩ ∧
    bestOf [⟨"b", some "2021-06-15", ["P"]⟩, ⟨"a", none, ["R"]⟩]
      = some ⟨"b", some "2021-06-15", ["P"]⟩ := by
  have hk1 : sortKeyS ⟨"a", some "2019-01-01", ["R"]⟩ = "2019-01-01" := rfl
  have hk2 : sortKeyS ⟨"b", some "2021-06-15", ["P"]⟩ = "2021-06-15" := rfl
  have hk3 : sortKeyS ⟨"a", none, ["R"]⟩ = "9999-99-99" := rfl
  have hne1 : ¬ ("2021-06-15" : String) < "2019-01-01" := by
    rw [String.lt_iff_toList_lt]; decide
  have hlt2 : ("2019-01-01" : String) < "2021-06-15" := by
    rw [String.lt_iff_toList_lt]; decide
  have hlt3 : ("2021-06-15" : String) < "9999-99-99" := by
    rw [String.lt_iff_toList_lt]; decide
  have hne4 : ¬ ("9999-99-99" : String) < "2021-06-15" := by
    rw [String.lt_iff_toList_lt]; decide
  refine ⟨?_, ?_, ?_,
    by simp only [bestOf, bestFold]; rw [hk1, hk2, if_neg hne1],
    by simp only [bestOf, bestFold]; rw [hk1, hk2, if_pos hlt2],
    by simp only [bestOf, bestFold]; rw [hk2, hk3, if_pos hlt3],
    by simp only [bestOf, bestFold]; rw [hk2, hk3, if_neg hne4]⟩
  · intro results m h
    cases results with
    | nil => simp [bestOf] at h
    | cons b rest =>
      rw [bestOf] at h
      simp only [Option.some.injEq] at h
      subst h
      constructor
      · rcases bestFold_mem rest b with h | h
        · rw [h]; exact List.mem_cons_self b rest
        · exact List.mem_cons_of_mem b h
      · intro x hx
        obtain ⟨h1, h2⟩ := bestFold_le rest b
        rcases List.mem_cons.mp hx with rfl | hx2
        · exact h1
        · exact h2 x hx2
  · intro m h
    simp [sortKeyS, h]
  · intro env sid isrc st m h
    simp [process_track, max_retries, process_track_go, h]

theorem merge_earliest_date_C2_witness :
    ((⟨"a", some "2019-01-01", ["R"]⟩ : MetaS) ∈
        [(⟨"a", some "2019-01-01", ["R"]⟩ : MetaS), ⟨"b", some "2021-06-15", ["P"]⟩] ∧
      ∀ x ∈ [(⟨"a", some "2019-01-01", ["R"]⟩ : MetaS), ⟨"b", some "2021-06-15", ["P"]⟩],
        sortKeyS ⟨"a", some "2019-01-01", ["R"]⟩ ≤ sortKeyS x) ∧
    sortKeyS ⟨"a", none, ["R"]⟩ = "9999-99-99" ∧
    (process_track (fun _ => ⟨.found ⟨"u", some "2020-01-01", ["Pop"]⟩, .nothing, .nothing⟩)
        "sid" "isrc" ⟨1, 0, 0, 0⟩).result =
      some ⟨"isrc", "sid", jsonDumpsList ["Pop"],
        (runAttempt ((fun (_ : Nat) =>
          (⟨.found ⟨"u", some "2020-01-01", ["Pop"]⟩, .nothing, .nothing⟩ : AttemptEnv)) 0)
          ⟨1, 0, 0, 0⟩).state.now / 1000⟩ :=
  ⟨merge_earliest_date_C2.1 _ _ merge_earliest_date_C2.2.2.2.1,
   merge_earliest_date_C2.2.1 _ (by rfl),
   merge_earliest_date_C2.2.2.1 _ "sid" "isrc" ⟨1, 0, 0, 0⟩ ⟨"u", some "2020-01-01", ["Pop"]⟩
     (by rfl)⟩

theorem markLimited_cooldown_self (s : OrchState) (p : Provider) :
    cooldownOf (markLimited s p) p = s.now + 120 * 1000 := by
  cases p <;> rfl

theorem markLimited_cooldown_other (s : OrchState) (p q : Provider) (h : q ≠ p) :
    cooldownOf (markLimited s p) q = cooldownOf s q := by
  cases p <;> cases q <;> simp_all [markLimited, cooldownOf]

theorem markLimited_now (s : OrchState) (p : Provider) :
    (markLimited s p).now = s.now := by
  cases p <;> rfl

theorem primaryStep_not_avail (p : Provider) (o : POutcome) (acc : AttemptResult)
    (h : isAvailable acc.state p = false) : primaryStep p o acc = acc := by
  simp [primaryStep, h]

theorem primaryStep_now (p : Provider) (o : POutcome) (acc : AttemptResult) :
    (primaryStep p o acc).state.now = acc.state.now := by
  unfold primaryStep
  cases ha : isAvailable acc.state p <;> cases o <;> simp [markLimited_now]

theorem primaryStep_cooldown_other (p : Provider) (o : POutcome) (acc : AttemptResult)
    (q : Provider) (h : q ≠ p) :
    cooldownOf (primaryStep p o acc).state q = cooldownOf acc.state q := by
  unfold primaryStep
  cases ha : isAvailable acc.state p <;> cases o <;>
    simp [markLimited_cooldown_other _ _ _ h]

theorem primaryStep_cooldown_limit (p : Provider) (o : POutcome) (acc : AttemptResult)
    (ha : isAvailable acc.state p = true) (hl : isLimitOutcome o = true) :
    cooldownOf (primaryStep p o acc).state p = acc.state.now + 120 * 1000 := by
  unfold primaryStep
  cases o <;> simp [isLimitOutcome] at hl <;>
    simp [ha, markLimited_cooldown_self]

theorem isAvailable_primaryStep_other (p : Provider) (o : POutcome) (acc : AttemptResult)
    (q : Provider) (h : q ≠ p) :
    isAvailable (primaryStep p o acc).state q = isAvailable acc.state q := by
  unfold isAvailable
  rw [primaryStep_now, primaryStep_cooldown_other _ _ _ _ h]

theorem primaryStep_dispatched_mem (p : Provider) (o : POutcome) (acc : AttemptResult)
    (q : Provider) (hq : q ∈ (primaryStep p o acc).dispatched) :
    q ∈ acc.dispatched ∨ (q = p ∧ isAvailable acc.state p = true) := by
  unfold primaryStep at hq
  cases ha : isAvailable acc.state p <;> rw [ha] at hq
  · simp at hq
    exact Or.inl hq
  · cases o <;> simp at hq <;>
      rcases hq with hq | hq <;> simp [hq, ha]

theorem fallbackStep_dispatched_mem (o : POutcome) (acc : AttemptResult)
    (q : Provider) (hq : q ∈ (fallbackStep o acc).dispatched) :
    q ∈ acc.dispatched ∨ (q = .squigly ∧ isAvailable acc.state .squigly = true) := by
  unfold fallbackStep at hq
  cases hc : (acc.results.isEmpty && isAvailable acc.state .squigly) <;> rw [hc] at hq
  · simp at hq
    exact Or.inl hq
  · have hsa : isAvailable acc.state .squigly = true := by
      rw [Bool.and_eq_true] at hc
      exact hc.2
    cases o <;> simp at hq <;>
      rcases hq with hq | hq <;> simp [hq, hsa]

theorem fallbackStep_cooldown_other (o : POutcome) (acc : AttemptResult)
    (q : Provider) (h : q ≠ .squigly) :
    cooldownOf (fallbackStep o acc).state q = cooldownOf acc.state q := by
  unfold fallbackStep
  cases hc : (acc.results.isEmpty && isAvailable acc.state .squigly) <;> cases o <;>
    simp [markLimited_cooldown_other _ _ _ h]

/-- C6: a rate-limit signal sets the provider's cooldown-until global to
the current time plus 120 seconds, and the dispatch check considers a
provider available exactly when the clock is strictly past that
timestamp — so after `markLimited` at time `t` the provider is
unavailable at every time up to `t + 120 s` and available strictly
after; within an attempt, a provider whose availability check fails is
never dispatched, and a rate-limit outcome from an available primary
provider leaves its cooldown at `now + 120 s` in the attempt's final
state. -/
theorem cooldown_availability_C6 :
    (∀ (s : OrchState) (p : Provider),
      cooldownOf (markLimited s p) p = s.now + 120 * 1000) ∧
    (∀ (s : OrchState) (p : Provider) (t2 : Nat),
      isAvailable { markLimited s p with now := t2 } p = true ↔ t2 > s.now + 120 * 1000) ∧
    (∀ (e : AttemptEnv) (s : OrchState),
      isAvailable s .odesli = false → Provider.odesli ∉ (runAttempt e s).dispatched) ∧
    (∀ (e : AttemptEnv) (s : OrchState),
      isAvailable s .tapelink = false → Provider.tapelink ∉ (runAttempt e s).dispatched) ∧
    (∀ (e : AttemptEnv) (s : OrchState),
      isAvailable s .squigly = false → Provider.squigly ∉ (runAttempt e s).dispatched) ∧
    (∀ (e : AttemptEnv) (s : OrchState),
      isAvailable s .odesli = true → isLimitOutcome e.odesli = true →
      cooldownOf (runAttempt e s).state .odesli = s.now + 120 * 1000) ∧
    (∀ (e : AttemptEnv) (s : OrchState),
      isAvailable s .tapelink = true → isLimitOutcome e.tapelink = true →
      cooldownOf (runAttempt e s).state .tapelink = s.now + 120 * 1000) := by
  have hava : ∀ (e : AttemptEnv) (s : OrchState),
      isAvailable (primaryStep .odesli e.odesli ⟨[], false, s, []⟩).state .tapelink
        = isAvailable s .tapelink := by
    intro e s
    exact isAvailable_primaryStep_other _ _ _ _ (by decide)
  have havb : ∀ (e : AttemptEnv) (s : OrchState),
      isAvailable (primaryStep .tapelink e.tapelink
          (primaryStep .odesli e.odesli ⟨[], false, s, []⟩)).state .squigly
        = isAvailable s .squigly := by
    intro e s
    rw [isAvailable_primaryStep_other _ _ _ _ (by decide),
      isAvailable_primaryStep_other _ _ _ _ (by decide)]
  have hmem : ∀ (e : AttemptEnv) (s : OrchState) (q : Provider),
      q ∈ (runAttempt e s).dispatched →
        (q = .odesli ∧ isAvailable s .odesli = true) ∨
        (q = .tapelink ∧ isAvailable s .tapelink = true) ∨
        (q = .squigly ∧ isAvailable s .squigly = true) := by
    intro e s q hq
    unfold runAttempt at hq
    rcases fallbackStep_dispatched_mem _ _ _ hq with hq2 | ⟨rfl, hsa⟩
    · rcases primaryStep_dispatched_mem _ _ _ _ hq2 with hq3 | ⟨rfl, hta⟩
      · rcases primaryStep_dispatched_mem _ _ _ _ hq3 with hq4 | ⟨rfl, hoa⟩
        · simp at hq4
        · exact Or.inl ⟨rfl, hoa⟩
      · exact Or.inr (Or.inl ⟨rfl, by rw [hava e s] at hta; exact hta⟩)
    · exact Or.inr (Or.inr ⟨rfl, by rw [havb e s] at hsa; exact hsa⟩)
  refine ⟨markLimited_cooldown_self, ?_, ?_, ?_, ?_, ?_, ?_⟩
  · intro s p t2
    cases p <;> simp [isAvailable, markLimited, cooldownOf]
  · intro e s h
    intro hq
    rcases hmem e s _ hq with ⟨_, ha⟩ | ⟨hne, _⟩ | ⟨hne, _⟩
    · rw [h] at ha; exact Bool.false_ne_true ha
    · exact Provider.noConfusion hne
    · exact Provider.noConfusion hne
  · intro e s h
    intro hq
    rcases hmem e s _ hq with ⟨hne, _⟩ | ⟨_, ha⟩ | ⟨hne, _⟩
    · exact Provider.noConfusion hne
    · rw [h] at ha; exact Bool.false_ne_true ha
    · exact Provider.noConfusion hne
  · intro e s h
    intro hq
    rcases hmem e s _ hq with ⟨hne, _⟩ | ⟨hne, _⟩ | ⟨_, ha⟩
    · exact Provider.noConfusion hne
    · exact Provider.noConfusion hne
    · rw [h] at ha; exact Bool.false_ne_true ha
  · intro e s h hl
    unfold runAttempt
    rw [fallbackStep_cooldown_other _ _ _ (by decide),
      primaryStep_cooldown_other _ _ _ _ (by decide),
      primaryStep_cooldown_limit _ _ _ h hl]
  · intro e s h hl
    unfold runAttempt
    rw [fallbackStep_cooldown_other _ _ _ (by decide),
      primaryStep_cooldown_limit _ _ _ (by rw [hava e s]; exact h) hl,
      primaryStep_now]

theorem cooldown_availability_C6_witness :
    cooldownOf (markLimited ⟨5000, 0, 0, 0⟩ .odesli) .odesli = 5000 + 120 * 1000 ∧
    (isAvailable { markLimited (⟨5000, 0, 0, 0⟩ : OrchState) .odesli with now := 125001 }
        .odesli = true ↔ (125001 : Nat) > 5000 + 120 * 1000) ∧
    Provider.odesli ∉
      (runAttempt ⟨.nothing, .nothing, .nothing⟩ ⟨1000, 500000, 0, 0⟩).dispatched ∧
    cooldownOf (runAttempt ⟨.hardLimit, .nothing, .nothing⟩ ⟨1, 0, 0, 0⟩).state .odesli
      = 1 + 120 * 1000 :=
  ⟨cooldown_availability_C6.1 ⟨5000, 0, 0, 0⟩ .odesli,
   cooldown_availability_C6.2.1 ⟨5000, 0, 0, 0⟩ .odesli 125001,
   cooldown_availability_C6.2.2.1 ⟨.nothing, .nothing, .nothing⟩ ⟨1000, 500000, 0, 0⟩
     (by decide),
   cooldown_availability_C6.2.2.2.2.2.1 ⟨.hardLimit, .nothing, .nothing⟩ ⟨1, 0, 0, 0⟩
     (by decide) (by decide)⟩

theorem primaryStep_retry (p : Provider) (o : POutcome) (acc : AttemptResult) :
    (primaryStep p o acc).shouldRetry =
      (acc.shouldRetry || (isAvailable acc.state p && isLimitOutcome o)) := by
  unfold primaryStep
  cases ha : isAvailable acc.state p <;> cases o <;> simp [isLimitOutcome]

theorem fallbackStep_retry (o : POutcome) (acc : AttemptResult) :
    (fallbackStep o acc).shouldRetry = acc.shouldRetry := by
  unfold fallbackStep
  cases hc : (acc.results.isEmpty && isAvailable acc.state .squigly) <;> cases o <;> simp

theorem runAttempt_retry_eq (e : AttemptEnv) (s : OrchState) :
    (runAttempt e s).shouldRetry =
      ((isAvailable s .odesli && isLimitOutcome e.odesli) ||
       (isAvailable s .tapelink && isLimitOutcome e.tapelink)) := by
  unfold runAttempt
  rw [fallbackStep_retry, primaryStep_retry, primaryStep_retry,
    isAvailable_primaryStep_other _ _ _ _ (by decide)]
  rfl

theorem runAttempt_dispatched_mem (e : AttemptEnv) (s : OrchState) (q : Provider)
    (hq : q ∈ (runAttempt e s).dispatched) :
    (q = .odesli ∧ isAvailable s .odesli = true) ∨
    (q = .tapelink ∧ isAvailable s .tapelink = true) ∨
    (q = .squigly ∧ isAvailable s .squigly = true) := by
  unfold runAttempt at hq
  rcases fallbackStep_dispatched_mem _ _ _ hq with hq2 | ⟨rfl, hsa⟩
  · rcases primaryStep_dispatched_mem _ _ _ _ hq2 with hq3 | ⟨rfl, hta⟩
    · rcases primaryStep_dispatched_mem _ _ _ _ hq3 with hq4 | ⟨rfl, hoa⟩
      · simp at hq4
      · exact Or.inl ⟨rfl, hoa⟩
    · refine Or.inr (Or.inl ⟨rfl, ?_⟩)
      rwa [isAvailable_primaryStep_other _ _ _ _ (by decide)] at hta
  · refine Or.inr (Or.inr ⟨rfl, ?_⟩)
    rwa [isAvailable_primaryStep_other _ _ _ _ (by decide),
      isAvailable_primaryStep_other _ _ _ _ (by decide)] at hsa

theorem process_track_single_attempt (env : Nat → AttemptEnv) (sid isrc : String)
    (s : OrchState) (h : (runAttempt (env 0) s).shouldRetry = false) :
    (process_track env sid isrc s).sleeps = [] ∧
    (process_track env sid isrc s).attempts = 1 ∧
    ((runAttempt (env 0) s).results = [] → (process_track env sid isrc s).result = none) := by
  cases hb : bestOf (runAttempt (env 0) s).results with
  | some m =>
    refine ⟨by simp [process_track, max_retries, process_track_go, hb],
      by simp [process_track, max_retries, process_track_go, hb], ?_⟩
    intro he
    rw [he] at hb
    simp [bestOf] at hb
  | none =>
    refine ⟨by simp [process_track, max_retries, process_track_go, hb, h],
      by simp [process_track, max_retries, process_track_go, hb, h],
      fun _ => by simp [process_track, max_retries, process_track_go, hb, h]⟩

/-- C3 counterexample: with both primary providers on cooldown
(`c3State`) the orchestrator performs no pause at all — `process_track`
sleeps nothing and the clock is unchanged — and instead dispatches the
Squigly fallback in the same attempt and returns its result; there is no
5-minute (or any) global circuit-breaker pause in `process_track`. -/
theorem breaker_no_pause_counterexample_C3 :
    (process_track c3Env "tid" "isrc1" c3State).sleeps = [] ∧
    (process_track c3Env "tid" "isrc1" c3State).state.now = c3State.now ∧
    (runAttempt (c3Env 0) c3State).dispatched = [Provider.squigly] ∧
    (process_track c3Env "tid" "isrc1" c3State).result =
      some ⟨"isrc1", "tid", jsonDumpsList ["Pop"], 1⟩ := by
  refine ⟨by decide, by decide, by decide, ?_⟩
  rfl

/-- C3 amended: when both primary providers are simultaneously on
cooldown at dispatch time, neither is dispatched; the orchestrator does
not pause (no sleep occurs and only one attempt runs, because the retry
flag can only be set by a dispatched primary provider) and proceeds
directly to the fallback provider in the same attempt whenever the
fallback is itself available. -/
theorem breaker_amended_C3 :
    ∀ (env : Nat → AttemptEnv) (sid isrc : String) (s : OrchState),
      isAvailable s .odesli = false → isAvailable s .tapelink = false →
      Provider.odesli ∉ (runAttempt (env 0) s).dispatched ∧
      Provider.tapelink ∉ (runAttempt (env 0) s).dispatched ∧
      (isAvailable s .squigly = true →
        Provider.squigly ∈ (runAttempt (env 0) s).dispatched) ∧
      (process_track env sid isrc s).sleeps = [] ∧
      (process_track env sid isrc s).attempts = 1 := by
  intro env sid isrc s ho ht
  have hretry : (runAttempt (env 0) s).shouldRetry = false := by
    rw [runAttempt_retry_eq, ho, ht]
    rfl
  obtain ⟨hs1, hs2, _⟩ := process_track_single_attempt env sid isrc s hretry
  refine ⟨?_, ?_, ?_, hs1, hs2⟩
  · intro hq
    rcases runAttempt_dispatched_mem _ _ _ hq with ⟨_, ha⟩ | ⟨hne, _⟩ | ⟨hne, _⟩
    · rw [ho] at ha; exact Bool.false_ne_true ha
    · exact Provider.noConfusion hne
    · exact Provider.noConfusion hne
  · intro hq
    rcases runAttempt_dispatched_mem _ _ _ hq with ⟨hne, _⟩ | ⟨_, ha⟩ | ⟨hne, _⟩
    · exact Provider.noConfusion hne
    · rw [ht] at ha; exact Bool.false_ne_true ha
    · exact Provider.noConfusion hne
  · intro hsq
    unfold runAttempt
    rw [primaryStep_not_avail .odesli (env 0).odesli ⟨[], false, s, []⟩ (by exact ho)]
    rw [primaryStep_not_avail .tapelink (env 0).tapelink ⟨[], false, s, []⟩ (by exact ht)]
    unfold fallbackStep
    have hcond : ((⟨[], false, s, []⟩ : AttemptResult).results.isEmpty &&
        isAvailable (⟨[], false, s, []⟩ : AttemptResult).state .squigly) = true := by
      simp [hsq]
    rw [hcond]
    cases (env 0).squigly <;> simp

theorem breaker_amended_C3_witness :
    Provider.odesli ∉ (runAttempt (c3Env 0) c3State).dispatched ∧
    Provider.tapelink ∉ (runAttempt (c3Env 0) c3State).dispatched ∧
    (isAvailable c3State .squigly = true →
      Provider.squigly ∈ (runAttempt (c3Env 0) c3State).dispatched) ∧
    (process_track c3Env "tid" "isrc1" c3State).sleeps = [] ∧
    (process_track c3Env "tid" "isrc1" c3State).attempts = 1 :=
  breaker_amended_C3 c3Env "tid" "isrc1" c3State (by decide) (by decide)

/-- C4 counterexample: an attempt with zero results in which a rate-limit
signal was observed from the fallback provider (its cooldown is written)
terminates immediately — one attempt, no backoff sleep, not-found
result — because only primary-provider rate limits set `should_retry`;
this refutes the claim that a rate-limit signal "from any provider tried
that attempt, including the fallback" triggers the escalating backoff
retry. -/
theorem fallback_rate_limit_counterexample_C4 :
    (runAttempt (c4Env 0) c4State).state.squiglyUntil = 1 + 120 * 1000 ∧
    (runAttempt (c4Env 0) c4State).results = [] ∧
    (process_track c4Env "tid" "isrc2" c4State).attempts = 1 ∧
    (process_track c4Env "tid" "isrc2" c4State).sleeps = [] ∧
    (process_track c4Env "tid" "isrc2" c4State).result = none := by
  decide

/-- C4 amended: the retry flag of an attempt is set exactly by a hard or
soft rate limit from a dispatched (available) primary provider — a
fallback rate limit never sets it; with zero results and no retry flag
the track terminates immediately as not-found after a single attempt
with no backoff; with zero results and the retry flag the orchestrator
sleeps 30 s before the second attempt and 60 s before the third
(`min(30·k, 120)` for the k-th retry), and never exceeds 3 attempts or
the sleep sequence `[30, 60]`. -/
theorem retry_policy_amended_C4 :
    (∀ (e : AttemptEnv) (s : OrchState),
      (runAttempt e s).shouldRetry =
        ((isAvailable s .odesli && isLimitOutcome e.odesli) ||
         (isAvailable s .tapelink && isLimitOutcome e.tapelink))) ∧
    (∀ (env : Nat → AttemptEnv) (sid isrc : String) (s : OrchState),
      (runAttempt (env 0) s).shouldRetry = false →
      (runAttempt (env 0) s).results = [] →
      (process_track env sid isrc s).result = none ∧
      (process_track env sid isrc s).attempts = 1 ∧
      (process_track env sid isrc s).sleeps = []) ∧
    (∀ (env : Nat → AttemptEnv) (sid isrc : String) (s : OrchState),
      (runAttempt (env 0) s).results = [] →
      (runAttempt (env 0) s).shouldRetry = true →
      ∃ rest, (process_track env sid isrc s).sleeps = 30 :: rest) ∧
    (∀ (env : Nat → AttemptEnv) (sid isrc : String) (s : OrchState),
      (runAttempt (env 0) s).results = [] →
      (runAttempt (env 0) s).shouldRetry = true →
      (runAttempt (env 1) (sleepSec (runAttempt (env 0) s).state 30)).results = [] →
      (runAttempt (env 1) (sleepSec (runAttempt (env 0) s).state 30)).shouldRetry = true →
      (process_track env sid isrc s).sleeps = [30, 60] ∧
      (process_track env sid isrc s).attempts = 3) ∧
    (∀ (env : Nat → AttemptEnv) (sid isrc : String) (s : OrchState),
      (process_track env sid isrc s).attempts ≤ 3 ∧
      ((process_track env sid isrc s).sleeps = [] ∨
       (process_track env sid isrc s).sleeps = [30] ∨
       (process_track env sid isrc s).sleeps = [30, 60])) := by
  refine ⟨runAttempt_retry_eq, ?_, ?_, ?_, ?_⟩
  · intro env sid isrc s h he
    obtain ⟨h1, h2, h3⟩ := process_track_single_attempt env sid isrc s h
    exact ⟨h3 he, h2, h1⟩
  · intro env sid isrc s he hr
    have hb : bestOf (runAttempt (env 0) s).results = none := by rw [he]; rfl
    refine ⟨(process_track_go env sid isrc 2 1 (sleepSec (runAttempt (env 0) s).state 30)).sleeps, ?_⟩
    simp [process_track, max_retries, process_track_go, hb, hr]
  · intro env sid isrc s he0 hr0 he1 hr1
    have hb0 : bestOf (runAttempt (env 0) s).results = none := by rw [he0]; rfl
    have hb1 : bestOf (runAttempt (env 1)
        (sleepSec (runAttempt (env 0) s).state 30)).results = none := by rw [he1]; rfl
    set s2 := sleepSec (runAttempt (env 1) (sleepSec (runAttempt (env 0) s).state 30)).state 60
    cases h2 : bestOf (runAttempt (env 2) s2).results with
    | some m =>
      constructor <;>
        simp [process_track, max_retries, process_track_go, hb0, hr0, hb1, hr1, s2, h2]
    | none =>
      cases hr2 : (runAttempt (env 2) s2).shouldRetry with
      | false =>
        constructor <;>
          simp [process_track, max_retries, process_track_go, hb0, hr0, hb1, hr1, s2, h2, hr2]
      | true =>
        constructor <;>
          simp [process_track, max_retries, process_track_go, hb0, hr0, hb1, hr1, s2, h2, hr2]
  · intro env sid isrc s
    cases h0 : bestOf (runAttempt (env 0) s).results with
    | some m =>
      constructor <;> simp [process_track, max_retries, process_track_go, h0]
    | none =>
      cases hr0 : (runAttempt (env 0) s).shouldRetry with
      | false =>
        constructor <;> simp [process_track, max_retries, process_track_go, h0, hr0]
      | true =>
        set s1 := sleepSec (runAttempt (env 0) s).state 30 with hs1
        cases h1 : bestOf (runAttempt (env 1) s1).results with
        | some m =>
          constructor <;>
            simp [process_track, max_retries, process_track_go, h0, hr0, hs1, h1]
        | none =>
          cases hr1 : (runAttempt (env 1) s1).shouldRetry with
          | false =>
            constructor <;>
              simp [process_track, max_retries, process_track_go, h0, hr0, hs1, h1, hr1]
          | true =>
            set s2 := sleepSec (runAttempt (env 1) s1).state 60 with hs2
            cases h2 : bestOf (runAttempt (env 2) s2).results with
            | some m =>
              constructor <;>
                simp [process_track, max_retries, process_track_go, h0, hr0, hs1, h1, hr1,
                  hs2, h2]
            | none =>
              cases hr2 : (runAttempt (env 2) s2).shouldRetry with
              | false =>
                constructor <;>
                  simp [process_track, max_retries, process_track_go, h0, hr0, hs1, h1, hr1,
                    hs2, h2, hr2]
              | true =>
                constructor <;>
                  simp [process_track, max_retries, process_track_go, h0, hr0, hs1, h1, hr1,
                    hs2, h2, hr2]

theorem retry_policy_amended_C4_witness :
    ((runAttempt (⟨.hardLimit, .nothing, .nothing⟩ : AttemptEnv) ⟨1, 0, 0, 0⟩).shouldRetry =
      ((isAvailable ⟨1, 0, 0, 0⟩ .odesli &&
          isLimitOutcome (POutcome.hardLimit : POutcome)) ||
       (isAvailable ⟨1, 0, 0, 0⟩ .tapelink && isLimitOutcome (POutcome.nothing : POutcome)))) ∧
    ((process_track (fun _ => ⟨.nothing, .nothing, .nothing⟩) "t" "i" ⟨1, 0, 0, 0⟩).result
        = none ∧
      (process_track (fun _ => ⟨.nothing, .nothing, .nothing⟩) "t" "i" ⟨1, 0, 0, 0⟩).attempts
        = 1 ∧
      (process_track (fun _ => ⟨.nothing, .nothing, .nothing⟩) "t" "i" ⟨1, 0, 0, 0⟩).sleeps
        = []) ∧
    (process_track (fun n => if n = 0 then ⟨.hardLimit, .nothing, .nothing⟩
        else ⟨.nothing, .hardLimit, .nothing⟩) "t" "i" ⟨1, 0, 0, 0⟩).sleeps = [30, 60] ∧
    (process_track (fun n => if n = 0 then ⟨.hardLimit, .nothing, .nothing⟩
        else ⟨.nothing, .hardLimit, .nothing⟩) "t" "i" ⟨1, 0, 0, 0⟩).attempts = 3 :=
  ⟨retry_policy_amended_C4.1 _ _,
   retry_policy_amended_C4.2.1 _ "t" "i" _ (by decide) (by decide),
   (retry_policy_amended_C4.2.2.2.1 _ "t" "i" ⟨1, 0, 0, 0⟩
     (by decide) (by decide) (by decide) (by decide)).1,
   (retry_policy_amended_C4.2.2.2.1 _ "t" "i" ⟨1, 0, 0, 0⟩
     (by decide) (by decide) (by decide) (by decide)).2⟩

/-- C5 counterexample: two failure shapes that are not HTTP 429 raise
instead of returning null — an Odesli 200-response whose body lacks the
entity id and links raises `SoftRateLimitException`, and a Tapelink
200-response with `success = false` and an error message containing
"rate" raises `SoftRateLimitException` — refuting "returns null for
every other failure shape ... without raising". -/
theorem resolver_soft_raise_counterexample_C5 :
    resolve_odesli 0 0 ⟨200, some (.obj [])⟩ ⟨200, none⟩
      = .error (.soft "Odesli returned empty response") ∧
    resolve_tapelink 0 0
      ⟨200, some (.obj [("success", .bool false), ("error", .str "rate limited")])⟩
      ⟨200, none⟩
      = .error (.soft "Tapelink rate limited") :=
  ⟨rfl, rfl⟩

/-- C5 amended: every resolver raises `RateLimitException` on an HTTP
429 from any request it reaches (API call and page/resolve call alike),
and returns null without raising on other non-success statuses, on
response-body parse failures, and on ordinary missing fields — except
the two documented soft-rate-limit shapes, which raise
`SoftRateLimitException` (propagated, not swallowed): an Odesli
200-response with falsy entity id and links, and a Tapelink
200-response with falsy `success` whose error message contains "rate"
or "limit". -/
theorem resolver_rate_limit_amended_C5 :
    (∀ (now cd : Nat) (api : HttpResp) (page : PageResp), ¬ now < cd → api.status = 429 →
      resolve_odesli now cd api page = .error (.rate "Odesli")) ∧
    (∀ (now cd : Nat) (api : HttpResp) (page : PageResp), ¬ now < cd → api.status = 429 →
      resolve_tapelink now cd api page = .error (.rate "Tapelink")) ∧
    (∀ (now cd : Nat) (c r : HttpResp), ¬ now < cd → c.status = 429 →
      resolve_squigly now cd c r = .error (.rate "Squigly")) ∧
    (∀ (now cd : Nat) (api : HttpResp) (page : PageResp) (eid ety : JVal), ¬ now < cd →
      odesliPhase1 api = .ok (.cont eid ety) → page.status = 429 →
      resolve_odesli now cd api page = .error (.rate "Odesli Page")) ∧
    (∀ (now cd : Nat) (api : HttpResp) (page : PageResp) (u : String), ¬ now < cd →
      tapelink_api_phase api = .ok (.proceed u) → page.status = 429 →
      resolve_tapelink now cd api page = .error (.rate "Tapelink Page")) ∧
    (∀ (now cd : Nat) (c r : HttpResp) (slug : JVal), ¬ now < cd →
      squigly_create_phase c = .ok (some slug) → r.status = 429 →
      resolve_squigly now cd c r = .error (.rate "Squigly Resolve")) ∧
    (∀ (now cd : Nat) (api : HttpResp) (page : PageResp), ¬ now < cd →
      api.status ≠ 429 → api.status ≠ 200 →
      resolve_odesli now cd api page = .ok .null ∧
      resolve_tapelink now cd api page = .ok .null) ∧
    (∀ (now cd : Nat) (c r : HttpResp), ¬ now < cd →
      c.status ≠ 429 → c.status ≠ 200 → c.status ≠ 201 →
      resolve_squigly now cd c r = .ok .null) ∧
    (∀ (now cd : Nat) (api : HttpResp) (page : PageResp), ¬ now < cd →
      api.status = 200 → api.body = none →
      resolve_odesli now cd api page = .ok .null ∧
      resolve_tapelink now cd api page = .ok .null) ∧
    (∀ (now cd : Nat) (c r : HttpResp), ¬ now < cd → c.status = 200 → c.body = none →
      resolve_squigly now cd c r = .ok .null) ∧
    resolve_tapelink 0 0 ⟨200, some (.obj [("success", .bool true)])⟩ ⟨200, none⟩
      = .ok .null ∧
    resolve_squigly 0 0 ⟨200, some (.obj [])⟩ ⟨200, some .null⟩ = .ok .null ∧
    odesli_api_phase ⟨200, some (.obj [])⟩
      = .error (.soft "Odesli returned empty response") ∧
    tapelink_api_phase ⟨200, some (.obj [("success", .bool false), ("message", .str "limit")])⟩
      = .error (.soft "Tapelink rate limited") := by
  refine ⟨?_, ?_, ?_, ?_, ?_, ?_, ?_, ?_, ?_, ?_, by rfl, by rfl, by rfl, by rfl⟩
  · intro now cd api page hc h
    have h1 : odesliPhase1 api = .error (.rate "Odesli") := by
      simp [odesliPhase1, odesli_api_phase, h]
    unfold resolve_odesli
    rw [if_neg hc, h1]
  · intro now cd api page hc h
    have h1 : tapelink_api_phase api = .error (.rate "Tapelink") := by
      simp [tapelink_api_phase, h]
      rfl
    unfold resolve_tapelink
    rw [if_neg hc, h1]
  · intro now cd c r hc h
    have h1 : squigly_create_phase c = .error (.rate "Squigly") := by
      simp [squigly_create_phase, h]
      rfl
    unfold resolve_squigly
    rw [if_neg hc, h1]
  · intro now cd api page eid ety hc h1 h429
    have hp : odesli_page_phase page = .error (.rate "Odesli Page") := by
      simp [odesli_page_phase, h429]
      rfl
    unfold resolve_odesli
    rw [if_neg hc, h1]
    dsimp only
    rw [hp]
  · intro now cd api page u hc h1 h429
    have hp : tapelink_page_phase page = .error (.rate "Tapelink Page") := by
      simp [tapelink_page_phase, h429]
      rfl
    unfold resolve_tapelink
    rw [if_neg hc, h1]
    dsimp only
    rw [hp]
  · intro now cd c r slug hc h1 h429
    have hp : squigly_resolve_phase r = .error (.rate "Squigly Resolve") := by
      simp [squigly_resolve_phase, h429]
      rfl
    unfold resolve_squigly
    rw [if_neg hc, h1]
    dsimp only
    rw [hp]
  · intro now cd api page hc h429 h200
    constructor
    · have h1 : odesliPhase1 api = .ok .noRes := by
        simp [odesliPhase1, odesli_api_phase, h429, h200, pure, Except.pure]
      unfold resolve_odesli
      rw [if_neg hc, h1]
    · have h1 : tapelink_api_phase api = .ok .noRes := by
        simp [tapelink_api_phase, h429, h200, pure, Except.pure]
      unfold resolve_tapelink
      rw [if_neg hc, h1]
  · intro now cd c r hc h429 h200 h201
    have h1 : squigly_create_phase c = .ok none := by
      simp [squigly_create_phase, h429, h200, h201, pure, Except.pure]
    unfold resolve_squigly
    rw [if_neg hc, h1]
  · intro now cd api page hc h200 hbody
    constructor
    · have h1 : odesliPhase1 api = .ok .noRes := by
        simp [odesliPhase1, odesli_api_phase, h200, hbody, pure, Except.pure]
      unfold resolve_odesli
      rw [if_neg hc, h1]
    · have h1 : tapelink_api_phase api = .error .other := by
        simp [tapelink_api_phase, h200, hbody, pure, Except.pure]
        rfl
      unfold resolve_tapelink
      rw [if_neg hc, h1]
  · intro now cd c r hc h200 hbody
    have h1 : squigly_create_phase c = .error .other := by
      simp [squigly_create_phase, h200, hbody, pure, Except.pure]
      rfl
    unfold resolve_squigly
    rw [if_neg hc, h1]

theorem resolver_rate_limit_amended_C5_witness :
    resolve_odesli 5 3 ⟨429, none⟩ ⟨200, none⟩ = .error (.rate "Odesli") ∧
    resolve_tapelink 5 3 ⟨429, none⟩ ⟨200, none⟩ = .error (.rate "Tapelink") ∧
    resolve_squigly 5 3 ⟨429, none⟩ ⟨200, none⟩ = .error (.rate "Squigly") ∧
    resolve_odesli 5 3 ⟨200, some (.obj [("id", .str "e1"), ("type", .str "song")])⟩
      ⟨429, none⟩ = .error (.rate "Odesli Page") ∧
    resolve_tapelink 5 3
      ⟨200, some (.obj [("success", .bool true), ("shareableLink", .str "tapelink.io/x")])⟩
      ⟨429, none⟩ = .error (.rate "Tapelink Page") ∧
    resolve_squigly 5 3 ⟨200, some (.obj [("slug", .str "s1")])⟩ ⟨429, none⟩
      = .error (.rate "Squigly Resolve") ∧
    resolve_odesli 5 3 ⟨503, none⟩ ⟨200, none⟩ = .ok .null ∧
    resolve_tapelink 5 3 ⟨503, none⟩ ⟨200, none⟩ = .ok .null ∧
    resolve_squigly 5 3 ⟨503, none⟩ ⟨200, none⟩ = .ok .null ∧
    resolve_odesli 5 3 ⟨200, none⟩ ⟨200, none⟩ = .ok .null ∧
    resolve_tapelink 5 3 ⟨200, none⟩ ⟨200, none⟩ = .ok .null ∧
    resolve_squigly 5 3 ⟨200, none⟩ ⟨200, none⟩ = .ok .null :=
  ⟨resolver_rate_limit_amended_C5.1 5 3 _ _ (by decide) rfl,
   resolver_rate_limit_amended_C5.2.1 5 3 _ _ (by decide) rfl,
   resolver_rate_limit_amended_C5.2.2.1 5 3 _ _ (by decide) rfl,
   resolver_rate_limit_amended_C5.2.2.2.1 5 3 _ _ (.str "e1") (.str "song")
     (by decide) (by rfl) rfl,
   resolver_rate_limit_amended_C5.2.2.2.2.1 5 3 _ _ "https://tapelink.io/x"
     (by decide) (by rfl) rfl,
   resolver_rate_limit_amended_C5.2.2.2.2.2.1 5 3 _ _ (.str "s1")
     (by decide) (by rfl) rfl,
   (resolver_rate_limit_amended_C5.2.2.2.2.2.2.1 5 3 ⟨503, none⟩ ⟨200, none⟩
     (by decide) (by decide) (by decide)).1,
   (resolver_rate_limit_amended_C5.2.2.2.2.2.2.1 5 3 ⟨503, none⟩ ⟨200, none⟩
     (by decide) (by decide) (by decide)).2,
   resolver_rate_limit_amended_C5.2.2.2.2.2.2.2.1 5 3 ⟨503, none⟩ ⟨200, none⟩
     (by decide) (by decide) (by decide) (by decide),
   (resolver_rate_limit_amended_C5.2.2.2.2.2.2.2.2.1 5 3 ⟨200, none⟩ ⟨200, none⟩
     (by decide) rfl rfl).1,
   (resolver_rate_limit_amended_C5.2.2.2.2.2.2.2.2.1 5 3 ⟨200, none⟩ ⟨200, none⟩
     (by decide) rfl rfl).2,
   resolver_rate_limit_amended_C5.2.2.2.2.2.2.2.2.2.1 5 3 ⟨200, none⟩ ⟨200, none⟩
     (by decide) rfl rfl⟩

theorem process_track_go_result_ids (env : Nat → AttemptEnv) (sid isrc : String) :
    ∀ (fuel rc : Nat) (s : OrchState) (r : TrackUpdate),
      (process_track_go env sid isrc fuel rc s).result = some r →
      r.isrc = isrc ∧ r.track_id = sid := by
  intro fuel
  induction fuel with
  | zero =>
    intro rc s r h
    simp [process_track_go] at h
  | succ n ih =>
    intro rc s r h
    simp only [process_track_go] at h
    cases hb : bestOf (runAttempt (env rc) s).results with
    | some m =>
      rw [hb] at h
      simp at h
      exact ⟨by rw [← h], by rw [← h]⟩
    | none =>
      rw [hb] at h
      cases hr : (runAttempt (env rc) s).shouldRetry with
      | false =>
        rw [hr] at h
        simp at h
      | true =>
        rw [hr] at h
        by_cases hlt : rc + 1 < 3
        · rw [if_pos hlt] at h
          exact ih (rc + 1) _ r h
        · rw [if_neg hlt] at h
          simp at h

theorem process_track_result_ids (env : Nat → AttemptEnv) (sid isrc : String)
    (s : OrchState) (r : TrackUpdate)
    (h : (process_track env sid isrc s).result = some r) :
    r.isrc = isrc ∧ r.track_id = sid :=
  process_track_go_result_ids env sid isrc max_retries 0 s r h

theorem run_job_go_cons (env : Nat → Nat → AttemptEnv) (i : Nat) (s : OrchState)
    (t : TrackItem) (rest : List TrackItem) :
    run_job_go env i s (t :: rest) =
      ((match (process_track (env i) t.id t.isrc s).result with
        | some r => r
        | none => mkEmptyUpdate t (process_track (env i) t.id t.isrc s).state.now) ::
          (run_job_go env (i + 1)
            { (process_track (env i) t.id t.isrc s).state with
              now := (process_track (env i) t.id t.isrc s).state.now + 500 } rest).1,
       (run_job_go env (i + 1)
         { (process_track (env i) t.id t.isrc s).state with
           now := (process_track (env i) t.id t.isrc s).state.now + 500 } rest).2.1,
       process_track (env i) t.id t.isrc s ::
         (run_job_go env (i + 1)
           { (process_track (env i) t.id t.isrc s).state with
             now := (process_track (env i) t.id t.isrc s).state.now + 500 } rest).2.2) :=
  rfl

/-- C1: the per-track loop of `run_job` appends exactly one update per
TrackItem consumed — the update list and the per-track trace list have
one entry per track; each appended update carries that track's isrc and
track id; and each update is exactly the record `process_track`
returned, or the empty-genre (`'[]'`) fallback record when it returned
`None`.  The embedded `process_track` is total (every exception inside
it is caught in the source), matching the claim that no processing
exception escapes to abort the loop. -/
theorem one_update_per_track_C1 :
    ∀ (env : Nat → Nat → AttemptEnv) (i : Nat) (s : OrchState) (tracks : List TrackItem),
      (run_job_go env i s tracks).1.length = tracks.length ∧
      (run_job_go env i s tracks).2.2.length = tracks.length ∧
      (∀ (j : Nat) (u : TrackUpdate) (log : RunLog) (t : TrackItem),
        (run_job_go env i s tracks).1.get? j = some u →
        (run_job_go env i s tracks).2.2.get? j = some log →
        tracks.get? j = some t →
        u.isrc = t.isrc ∧ u.track_id = t.id ∧
        u = (match log.result with
             | some r => r
             | none => mkEmptyUpdate t log.state.now)) := by
  intro env i s tracks
  induction tracks generalizing i s with
  | nil =>
    refine ⟨rfl, rfl, ?_⟩
    intro j u log t hu
    simp [run_job_go] at hu
  | cons t0 rest ih =>
    have hcons := run_job_go_cons env i s t0 rest
    set ps := process_track (env i) t0.id t0.isrc s with hps
    set s2 := { ps.state with now := ps.state.now + 500 } with hs2
    obtain ⟨ihl, ihg, ihj⟩ := ih (i + 1) s2
    refine ⟨by rw [hcons]; simp [ihl], by rw [hcons]; simp [ihg], ?_⟩
    intro j u log t hu hlog ht
    rw [hcons] at hu hlog
    cases j with
    | zero =>
      simp at hu hlog ht
      subst hlog
      subst ht
      cases hres : ps.result with
      | some r =>
        rw [hres] at hu
        simp at hu
        obtain ⟨hi, hti⟩ := process_track_result_ids (env i) t0.id t0.isrc s r (by
          rw [hps] at hres
          exact hres)
        subst hu
        exact ⟨hi, hti, by simp [hres]⟩
      | none =>
        rw [hres] at hu
        simp at hu
        subst hu
        exact ⟨rfl, rfl, by simp [hres]⟩
    | succ k =>
      simp only [List.get?_cons_succ] at hu hlog ht
      exact ihj k u log t hu hlog ht

theorem one_update_per_track_C1_witness :
    (run_job_go (fun _ _ => ⟨.nothing, .nothing, .nothing⟩) 0 ⟨1, 0, 0, 0⟩
        [⟨"sp1", "isrcA"⟩, ⟨"sp2", "isrcB"⟩]).1.length = 2 ∧
    ((⟨"isrcA", "sp1", "[]", 0⟩ : TrackUpdate).isrc = ("sp1", "isrcA").2 ∧
      (⟨"isrcA", "sp1", "[]", 0⟩ : TrackUpdate).track_id = ("sp1", "isrcA").1 ∧
      (⟨"isrcA", "sp1", "[]", 0⟩ : TrackUpdate) =
        (match (⟨none, ⟨1, 0, 0, 0⟩, [], 1,
            [[Provider.odesli, Provider.tapelink, Provider.squigly]]⟩ : RunLog).result with
         | some r => r
         | none => mkEmptyUpdate ⟨"sp1", "isrcA"⟩
             (⟨none, ⟨1, 0, 0, 0⟩, [], 1,
               [[Provider.odesli, Provider.tapelink, Provider.squigly]]⟩ : RunLog).state.now)) :=
  ⟨(one_update_per_track_C1 (fun _ _ => ⟨.nothing, .nothing, .nothing⟩) 0 ⟨1, 0, 0, 0⟩
      [⟨"sp1", "isrcA"⟩, ⟨"sp2", "isrcB"⟩]).1,
   (one_update_per_track_C1 (fun _ _ => ⟨.nothing, .nothing, .nothing⟩) 0 ⟨1, 0, 0, 0⟩
      [⟨"sp1", "isrcA"⟩, ⟨"sp2", "isrcB"⟩]).2.2 0 ⟨"isrcA", "sp1", "[]", 0⟩
      ⟨none, ⟨1, 0, 0, 0⟩, [], 1, [[Provider.odesli, Provider.tapelink, Provider.squigly]]⟩
      ⟨"sp1", "isrcA"⟩ (by decide) (by decide) (by decide)⟩
